import Mathlib

/-!
Verification of the VoxFlow transcription core.

Shallow embedding of the Python service in
`backend/python-service/app`: the overlap deduplication algorithm, the
chunker, the dynamic token budget, the job lifecycle of
`VoxtralEngine.transcribe_file`, the cleanup service and the progress
notifier.  Machine floats are modelled by rationals, Python dicts by
association lists, and the file system by lists of (session key, file
name) pairs.  String helpers (`split`, `strip`, `lower`) are implemented
by structural recursion on the character list so that concrete runs are
computable by the kernel.
-/

namespace VoxFlow

/-- Status enum `ProcessingStatus` from `app/models/transcription.py`. -/
inductive ProcessingStatus
  | pending
  | processing
  | completed
  | failed
  | cancelled
deriving DecidableEq, Repr

/-- Segment model `TranscriptionSegment` from `app/models/transcription.py`.
The Python field `end` is named `stop` here because `end` is reserved in Lean. -/
structure TranscriptionSegment where
  start : ℚ
  stop : ℚ
  text : String
  confidence : Option ℚ := none
  speaker : Option String := none
deriving DecidableEq, Repr

/-- Python `str.lower()` (ASCII case folding suffices for this code base). -/
def pyLower (s : String) : String :=
  String.mk (s.data.map Char.toLower)

/-- Python `str.strip()` with no argument: remove leading and trailing
whitespace. -/
def pyStrip (s : String) : String :=
  String.mk (((s.data.dropWhile Char.isWhitespace).reverse.dropWhile
    Char.isWhitespace).reverse)

/-- Worker for `pySplit`: scan the characters, accumulating the current word
reversed. -/
def splitWsAux : List Char → List Char → List String
  | [], acc => if acc.isEmpty then [] else [String.mk acc.reverse]
  | c :: cs, acc =>
    if c.isWhitespace then
      if acc.isEmpty then splitWsAux cs []
      else String.mk acc.reverse :: splitWsAux cs []
    else splitWsAux cs (c :: acc)

/-- Python `str.split()` with no argument: split on whitespace runs,
dropping empty pieces. -/
def pySplit (s : String) : List String :=
  splitWsAux s.data []

/-- Python `' '.join(words)`. -/
def joinWords (ws : List String) : String :=
  String.intercalate " " ws

/-- The lowercased word set of a text, `set(text.lower().split())` in
`_calculate_text_similarity`, as a duplicate-free list. -/
def wordSet (t : String) : List String :=
  (pySplit (pyLower t)).dedup

/-- `len(words1 & words2)` in `_calculate_text_similarity`. -/
def simInterCount (t1 t2 : String) : ℕ :=
  ((wordSet t1).filter (fun w => decide (w ∈ wordSet t2))).length

/-- `len(words1 | words2)` in `_calculate_text_similarity`. -/
def simUnionCount (t1 t2 : String) : ℕ :=
  (wordSet t1 ++ (wordSet t2).filter (fun w => decide (w ∉ wordSet t1))).length

/-- `VoxtralEngine._calculate_text_similarity` (voxtral_engine.py
lines 459-482): Jaccard similarity of the lowercased word sets; 0 when
either text or word set is empty. -/
def calculateTextSimilarity (text1 text2 : String) : ℚ :=
  if text1 = "" ∨ text2 = "" then 0
  else if wordSet text1 = [] ∨ wordSet text2 = [] then 0
  else if 0 < simUnionCount text1 text2 then
    (simInterCount text1 text2 : ℚ) / (simUnionCount text1 text2 : ℚ)
  else 0

/-- The comparison `similarity > 0.8` from line 450, cross-multiplied into
natural-number arithmetic so that concrete runs compute.
`similarityGtPoint8_iff` proves it equivalent to
`calculateTextSimilarity t1 t2 > 4/5`. -/
def similarityGtPoint8 (t1 t2 : String) : Bool :=
  if t1 = "" ∨ t2 = "" then false
  else if wordSet t1 = [] ∨ wordSet t2 = [] then false
  else if 0 < simUnionCount t1 t2 then
    decide (4 * simUnionCount t1 t2 < 5 * simInterCount t1 t2)
  else false

/-- The pair of cleaned texts produced when the overlap search succeeds at
candidate length `L`: drop the last `L` words of the current text and the
first `L` words of the next text (both re-joined with single spaces), as in
`_find_and_remove_duplicate_text` lines 442-443 and 451-452. -/
def overlapRemovalAt (currentWords nextWords : List String) (L : ℕ) :
    String × String :=
  (if L < currentWords.length then
      joinWords (currentWords.take (currentWords.length - L))
    else "",
   if L < nextWords.length then
      joinWords (nextWords.drop L)
    else "")

/-- The `L`-word tail of the current word list joined with spaces
(`' '.join(current_words[-overlap_len:])`). -/
def currentEndingAt (currentWords : List String) (L : ℕ) : String :=
  joinWords (currentWords.drop (currentWords.length - L))

/-- The `L`-word head of the next word list joined with spaces
(`' '.join(next_words[:overlap_len])`). -/
def nextBeginningAt (nextWords : List String) (L : ℕ) : String :=
  joinWords (nextWords.take L)

/-- The test performed at candidate length `L` in
`_find_and_remove_duplicate_text`: exact lowercased match of the tail
against the head (line 441), or Jaccard similarity strictly above 0.8
(line 450). -/
def overlapMatchAt (currentWords nextWords : List String) (L : ℕ) : Bool :=
  (pyLower (currentEndingAt currentWords L) == pyLower (nextBeginningAt nextWords L)) ||
    similarityGtPoint8 (currentEndingAt currentWords L) (nextBeginningAt nextWords L)

/-- The countdown loop `for overlap_len in range(max_overlap, 0, -1)` of
`_find_and_remove_duplicate_text`: try the largest candidate length first,
return the removal of the first match. -/
def findOverlapLoop (currentWords nextWords : List String) : ℕ → Option (String × String)
  | 0 => none
  | (l + 1) =>
    if overlapMatchAt currentWords nextWords (l + 1) then
      some (overlapRemovalAt currentWords nextWords (l + 1))
    else
      findOverlapLoop currentWords nextWords l

/-- The bound `max_overlap = min(len(current_words) // 2, len(next_words) // 2, 10)`
from line 434. -/
def maxOverlapBound (currentWords nextWords : List String) : ℕ :=
  min (min (currentWords.length / 2) (nextWords.length / 2)) 10

/-- `VoxtralEngine._find_and_remove_duplicate_text` (voxtral_engine.py
lines 411-457). -/
def findAndRemoveDuplicateText (currentText nextText : String) :
    Option (String × String) :=
  if currentText = "" ∨ nextText = "" then none
  else if (pySplit currentText).length < 2 ∨ (pySplit nextText).length < 2 then none
  else findOverlapLoop (pySplit currentText) (pySplit nextText)
    (maxOverlapBound (pySplit currentText) (pySplit nextText))

/-- The overlap-window test of `_remove_overlap_duplicates` lines 375-378:
`max(cur.start, next.start - overlap) < min(cur.end, next.start + overlap)`. -/
def overlapWindowNonempty (cur nxt : TranscriptionSegment) (overlapSeconds : ℚ) : Prop :=
  max cur.start (nxt.start - overlapSeconds) < min cur.stop (nxt.start + overlapSeconds)

instance (cur nxt : TranscriptionSegment) (overlapSeconds : ℚ) :
    Decidable (overlapWindowNonempty cur nxt overlapSeconds) := by
  unfold overlapWindowNonempty; infer_instance

/-- The body of the while loop of `_remove_overlap_duplicates`: the current
segment is emitted (possibly with cleaned text) and the cleaned next text is
written back into the list before the next iteration (line 397). -/
def removeOverlapGo (overlapSeconds : ℚ) :
    TranscriptionSegment → List TranscriptionSegment → List TranscriptionSegment
  | cur, [] => [cur]
  | cur, nxt :: rest =>
    if overlapWindowNonempty cur nxt overlapSeconds then
      match findAndRemoveDuplicateText (pyStrip cur.text) (pyStrip nxt.text) with
      | some (c, n) =>
          { cur with text := c } :: removeOverlapGo overlapSeconds { nxt with text := n } rest
      | none => cur :: removeOverlapGo overlapSeconds nxt rest
    else cur :: removeOverlapGo overlapSeconds nxt rest

/-- `VoxtralEngine._remove_overlap_duplicates` (voxtral_engine.py
lines 349-409). -/
def removeOverlapDuplicates (segments : List TranscriptionSegment)
    (overlapSeconds : ℚ) : List TranscriptionSegment :=
  if segments.length < 2 then segments
  else
    match segments with
    | [] => []
    | s :: rest => removeOverlapGo overlapSeconds s rest

/-! ### Dynamic token budget (`_transcribe_pytorch` lines 642-649,
`_transcribe_mlx` lines 536-542) -/

/-- Python `int()` applied to a float: truncation toward zero. -/
def pyInt (q : ℚ) : ℤ :=
  if 0 ≤ q then ⌊q⌋ else -⌊-q⌋

/-- `estimated_tokens = max(int(audio_duration_seconds * 5), 100)`. -/
def estimatedTokens (audioDurationSeconds : ℚ) : ℤ :=
  max (pyInt (audioDurationSeconds * 5)) 100

/-- `max_tokens = min(estimated_tokens + 300, 2048)`. -/
def maxTokens (audioDurationSeconds : ℚ) : ℤ :=
  min (estimatedTokens audioDurationSeconds + 300) 2048

/-- Modelled from the spec: the token budget as the spec words it,
`min(max(ceil(s * 5), 100) + 300, 2048)` with a ceiling in the estimate.
Stated for comparison with `maxTokens`, which embeds the source. -/
def specMaxTokensCeil (s : ℚ) : ℤ :=
  min (max ⌈s * 5⌉ 100 + 300) 2048

/-- The amended token budget formula: truncation (floor, for non-negative
durations) instead of ceiling. -/
def specMaxTokensFloor (s : ℚ) : ℤ :=
  min (max ⌊s * 5⌋ 100 + 300) 2048

/-! ### Chunker (`AudioProcessor._process_chunked_file`, audio_processor.py
lines 85-122, and `process_large_file` lines 32-83) -/

/-- Python `range(0, stop, step)` for a positive step. -/
def pyRange (stop step : ℕ) : List ℕ :=
  (List.range ((stop + step - 1) / step)).map (· * step)

/-- A chunk emitted by the chunker: the dense index assigned at emission,
and the window bounds in milliseconds. -/
structure EmittedChunk where
  index : ℕ
  startMs : ℕ
  endMs : ℕ
deriving DecidableEq, Repr

/-- The loop body of `_process_chunked_file` lines 99-122: walk the window
starts, skip windows shorter than 5000 ms unless final, and assign dense
indices (`chunk_count` increments only on emission). -/
def chunkScan (totalMs chunkMs : ℕ) : List ℕ → ℕ → List EmittedChunk
  | [], _ => []
  | startMs :: rest, count =>
    if min (startMs + chunkMs) totalMs - startMs < 5000
        ∧ ¬ totalMs ≤ min (startMs + chunkMs) totalMs then
      chunkScan totalMs chunkMs rest count
    else
      ⟨count, startMs, min (startMs + chunkMs) totalMs⟩
        :: chunkScan totalMs chunkMs rest (count + 1)

/-- `AudioProcessor._process_chunked_file`: windows start at multiples of
`chunk_duration_ms - overlap_ms` below the total duration. -/
def processChunkedFile (totalMs chunkMinutes overlapSeconds : ℕ) :
    List EmittedChunk :=
  chunkScan totalMs (chunkMinutes * 60 * 1000)
    (pyRange totalMs (chunkMinutes * 60 * 1000 - overlapSeconds * 1000)) 0

/-- `AudioProcessor.process_large_file` chunk dispatch (lines 65-76): a file
whose duration in minutes is at most `chunk_duration_minutes` is emitted as
a single chunk with index 0; larger files go through
`_process_chunked_file`. -/
def processLargeFile (totalMs chunkMinutes overlapSeconds : ℕ) :
    List EmittedChunk :=
  if (totalMs : ℚ) / 1000 / 60 ≤ (chunkMinutes : ℚ) then [⟨0, 0, totalMs⟩]
  else processChunkedFile totalMs chunkMinutes overlapSeconds

/-- `estimated_chunks = max(1, math.ceil(duration_minutes / chunk_duration))`
from `transcribe_file` lines 835-838, with
`duration_minutes = len(audio) / 1000 / 60` from `get_audio_info`. -/
def estimatedChunks (totalMs chunkMinutes : ℕ) : ℤ :=
  max 1 ⌈((totalMs : ℚ) / 1000 / 60) / (chunkMinutes : ℚ)⌉

/-! ### Progress updates in `transcribe_file` -/

/-- The successive values taken by `job_progress.progress_percent` during a
run of `transcribe_file`: 0.0 at creation (line 819), then
`(completed_chunks / total_chunks) * 100` after each chunk (line 886), then
100.0 on completion (line 916) unless the job was cancelled (line 914). -/
def progressTrace (totalChunks emittedCount : ℕ) (cancelled : Bool) : List ℚ :=
  (0 : ℚ) ::
    ((List.range emittedCount).map
      (fun (k : ℕ) => ((((k : ℕ) : ℚ) + 1) / (totalChunks : ℚ)) * 100)
    ++ if cancelled then [] else [100])

/-- The progress trace of a full uncancelled run on an audio of `totalMs`
milliseconds: `total_chunks` is the engine estimate and the number of chunk
updates is the number of chunks the chunker actually emits. -/
def jobProgressTrace (totalMs chunkMinutes overlapSeconds : ℕ) : List ℚ :=
  progressTrace (estimatedChunks totalMs chunkMinutes).toNat
    (processLargeFile totalMs chunkMinutes overlapSeconds).length false

/-! ### The chunk loop of `transcribe_file` (lines 855-951) with
cooperative cancellation -/

/-- One chunk as the engine loop sees it: its start time within the audio
and the chunk-local segments produced by `_transcribe_chunk`. -/
structure ChunkData where
  startTime : ℚ
  segments : List TranscriptionSegment
deriving Repr

/-- Time rebasing of a chunk-local segment (lines 874-882):
`start + chunk.start_time`, `end + chunk.start_time`. -/
def rebaseSegment (c : ChunkData) (s : TranscriptionSegment) : TranscriptionSegment :=
  { s with start := s.start + c.startTime, stop := s.stop + c.startTime }

/-- The response built at lines 919-932, restricted to the fields the
claims are about. -/
structure TranscriptionResponse where
  status : ProcessingStatus
  segments : List TranscriptionSegment
  fullText : String
  chunkCount : ℕ
deriving Repr

/-- Result of running the chunk loop of `transcribe_file`.
`cancelAtBoundary = some j` means `cancel_job` set the status flag between
chunk `j - 1` and chunk `j`, so the check at line 865 breaks the loop after
`j` chunks; `none` means the job is never cancelled.  In both cases the code
falls through to lines 906-951: overlap removal when more than one segment
was collected, status `cancelled` kept or `completed` set, and a response
carrying the collected segments is built and returned. -/
def runTranscribeFile (chunks : List ChunkData) (cancelAtBoundary : Option ℕ)
    (overlapSeconds : ℚ) : TranscriptionResponse :=
  let processed := match cancelAtBoundary with
    | some j => chunks.take j
    | none => chunks
  let allSegments := processed.flatMap (fun c => c.segments.map (rebaseSegment c))
  let finalSegments :=
    if 1 < allSegments.length then removeOverlapDuplicates allSegments overlapSeconds
    else allSegments
  { status := match cancelAtBoundary with
      | some _ => ProcessingStatus.cancelled
      | none => ProcessingStatus.completed,
    segments := finalSegments,
    fullText := joinWords ((finalSegments.filter (fun s => pyStrip s.text ≠ "")).map (·.text)),
    chunkCount := processed.length }

/-! ### Job map lifecycle (`active_jobs`, `get_job_progress`, `cancel_job`,
and the `finally` block of `transcribe_file`) -/

/-- Mutable job snapshot `JobProgress` from `app/models/transcription.py`,
restricted to the fields the claims are about. -/
structure JobProgress where
  jobId : String
  status : ProcessingStatus
  progressPercent : ℚ
  canCancel : Bool := true
deriving DecidableEq, Repr

/-- Engine bookkeeping state: the `active_jobs` dict and the delayed
cleanups scheduled with `cleanup_service.schedule_delayed_cleanup`,
as (session id, delay in seconds) pairs. -/
structure EngineJobState where
  activeJobs : List (String × JobProgress)
  scheduledCleanups : List (String × ℕ)
deriving DecidableEq, Repr

/-- `VoxtralEngine.get_job_progress` (lines 1015-1017):
`self.active_jobs.get(job_id)`. -/
def getJobProgress (st : EngineJobState) (jobId : String) : Option JobProgress :=
  (st.activeJobs.find? (fun p => p.1 == jobId)).map (·.2)

/-- The terminal bookkeeping of a successful `transcribe_file` run: line 947
schedules a 300 s delayed cleanup of the session (replacing any previous
schedule for it), and the `finally` block at line 972 pops the job from
`active_jobs` before the call returns. -/
def finalizeTranscribeFile (st : EngineJobState) (jobId : String) : EngineJobState :=
  { activeJobs := st.activeJobs.filter (fun p => ¬ p.1 == jobId),
    scheduledCleanups :=
      (jobId, 300) :: st.scheduledCleanups.filter (fun p => ¬ p.1 == jobId) }

/-! ### Progress notifier (`app/services/progress_notifier.py`) -/

/-- The part of a notification payload the claims are about. -/
structure NotificationPayload where
  jobId : String
  status : String
  progressPercent : ℚ
deriving DecidableEq, Repr

/-- The payload built by `ProgressNotifier.notify_job_cancelled`
(lines 221-237): `{"status": "cancelled", "progress_percent": 0.0}` plus the
job id; the function receives only the job id, never the job progress. -/
def notifyJobCancelledPayload (jobId : String) : NotificationPayload :=
  { jobId := jobId, status := "cancelled", progressPercent := 0 }

/-- `VoxtralEngine.cancel_job` (lines 1000-1013): when the job id is in
`active_jobs`, set its status to cancelled, emit the cancellation
notification, and return true; otherwise return false and emit nothing. -/
def cancelJob (st : EngineJobState) (jobId : String) :
    EngineJobState × Bool × Option NotificationPayload :=
  if (st.activeJobs.find? (fun p => p.1 == jobId)).isSome then
    ({ st with activeJobs := st.activeJobs.map (fun p =>
        if p.1 == jobId then (p.1, { p.2 with status := ProcessingStatus.cancelled }) else p) },
     true, some (notifyJobCancelledPayload jobId))
  else (st, false, none)

/-! ### Cleanup service (`app/services/cleanup_service.py`) -/

/-- Cleanup service state plus the temp-directory file system, modelled as a
list of (session directory, file name) pairs under `settings.temp_path`. -/
structure CleanupState where
  activeSessions : List String
  sessionLastActivity : List (String × ℚ)
  protectedFiles : List (String × List String)
  cleanupTasks : List String
  files : List (String × String)
deriving DecidableEq, Repr

/-- `CleanupService.cleanup_session` (lines 71-120): refuse (return 0 and
change nothing) when the session is active and `force` is not set; otherwise
drop the session from all tracking maps, delete the files under the session
directory, and cancel any pending delayed-cleanup task.  Returns the new
state and the number of files cleaned. -/
def cleanupSession (st : CleanupState) (sessionId : String) (force : Bool) :
    CleanupState × ℕ :=
  if force = false ∧ sessionId ∈ st.activeSessions then (st, 0)
  else
    ({ activeSessions := st.activeSessions.filter (fun s => ¬ s == sessionId),
       sessionLastActivity := st.sessionLastActivity.filter (fun p => ¬ p.1 == sessionId),
       protectedFiles := st.protectedFiles.filter (fun p => ¬ p.1 == sessionId),
       cleanupTasks := st.cleanupTasks.filter (fun s => ¬ s == sessionId),
       files := st.files.filter (fun f => ¬ f.1 == sessionId) },
     (st.files.filter (fun f => f.1 == sessionId)).length)

/-! ### Session keying of scratch files (`process_large_file` lines 49-57,
`_save_temp_file`, `_save_processed_chunk`, versus `transcribe_file`
lines 812-827 and `cancel_job`) -/

/-- Fresh-id supply modelling `uuid.uuid4()`: every draw yields an id never
returned before. -/
structure IdGen where
  next : ℕ
deriving DecidableEq, Repr

/-- Draw a fresh id. -/
def IdGen.fresh (g : IdGen) : ℕ × IdGen :=
  (g.next, ⟨g.next + 1⟩)

/-- Python `f"{i:04d}"`. -/
def pad4 (i : ℕ) : String :=
  let s := toString i
  String.mk (List.replicate (4 - s.length) '0') ++ s

/-- A file in the temp tree, keyed by the session id of the directory it
lives in. -/
structure FsFile where
  sessionKey : ℕ
  name : String
deriving DecidableEq, Repr

/-- The files the audio processor writes for one submitted file: the
uploaded original (`_save_temp_file`) and one spilled wav per chunk
(`_save_processed_chunk`), all under `temp_path / session_id` where
`session_id` is the UUID drawn at line 50 of `process_large_file`. -/
def processorFiles (sessionId : ℕ) (chunkCount : ℕ) (ext : String) : List FsFile :=
  ⟨sessionId, "original" ++ ext⟩ ::
    (List.range chunkCount).map (fun i => ⟨sessionId, "chunk_" ++ pad4 i ++ ".wav"⟩)

/-- Deleting the contents of one session directory, as both
`CleanupService.cleanup_session` (on the directory of the id it is given)
and `AudioProcessor._cleanup_session` (on its tracked files) do. -/
def removeSessionDir (files : List FsFile) (sessionId : ℕ) : List FsFile :=
  files.filter (fun f => ¬ f.sessionKey == sessionId)

/-- The two UUID draws of one submission: `transcribe_file` line 812 draws
`job_id` and registers it with the cleanup service; `process_large_file`
line 50 then draws its own `session_id` for the scratch directory. -/
def submissionIds (g : IdGen) : ℕ × ℕ :=
  let (jobId, g1) := g.fresh
  let (sessionId, _) := g1.fresh
  (jobId, sessionId)

/-! ## Theorems -/

/-- Claim C3, counterexample: at 2561/128 seconds of audio (20.0078125 s,
an exactly representable duration), the code computes 400 tokens while the
formula of the claim, with a ceiling in the estimate, gives 401. -/
theorem C3_token_budget_ceiling_counterexample :
    maxTokens (2561 / 128) = 400 ∧ specMaxTokensCeil (2561 / 128) = 401 := by
  constructor
  · have hfl : ⌊(2561 / 128 : ℚ) * 5⌋ = 100 := by norm_num
    unfold maxTokens estimatedTokens pyInt
    rw [if_pos (by norm_num), hfl]
    norm_num
  · have hcl : ⌈(2561 / 128 : ℚ) * 5⌉ = 101 := by
      rw [Int.ceil_eq_iff]
      norm_num
    unfold specMaxTokensCeil
    rw [hcl]
    norm_num

/-- Claim C3 (amended): for every non-negative audio duration `s`, the token
budget used per transcription call equals
`min(max(floor(s * 5), 100) + 300, 2048)` — the estimate truncates `s * 5`
(Python `int()`), it does not take the ceiling. -/
theorem C3_token_budget_floor (s : ℚ) (hs : 0 ≤ s) :
    maxTokens s = specMaxTokensFloor s := by
  unfold maxTokens estimatedTokens specMaxTokensFloor pyInt
  rw [if_pos (by positivity : (0 : ℚ) ≤ s * 5)]

/-- Witness for C3: the amended formula evaluated at 7 seconds. -/
theorem C3_token_budget_floor_witness :
    (0 : ℚ) ≤ 7 ∧ maxTokens 7 = specMaxTokensFloor 7 :=
  ⟨by norm_num, C3_token_budget_floor 7 (by norm_num)⟩

/-- Claim C8: for a currently active session id, `cleanup_session` without
force refuses — the state (tracking maps and files) is unchanged and zero
files are reported cleaned. -/
theorem C8_cleanup_refuses_active_session (st : CleanupState) (sessionId : String)
    (h : sessionId ∈ st.activeSessions) :
    cleanupSession st sessionId false = (st, 0) := by
  unfold cleanupSession
  rw [if_pos ⟨rfl, h⟩]

/-- Witness for C8: a concrete state with one active session and one file. -/
theorem C8_cleanup_refuses_active_session_witness :
    "s1" ∈ (CleanupState.mk ["s1"] [] [] ["s1"] [("s1", "original.wav")]).activeSessions ∧
      cleanupSession (CleanupState.mk ["s1"] [] [] ["s1"] [("s1", "original.wav")]) "s1" false
        = (CleanupState.mk ["s1"] [] [] ["s1"] [("s1", "original.wav")], 0) :=
  ⟨by simp, C8_cleanup_refuses_active_session _ "s1" (by simp)⟩

/-- Claim C9: whenever `cancel_job` emits a cancellation notification, the
payload carries `progress_percent = 0.0` and status `cancelled`, regardless
of the progress stored for the job. -/
theorem C9_cancel_notification_has_zero_progress (st : EngineJobState)
    (jobId : String) (pl : NotificationPayload)
    (h : (cancelJob st jobId).2.2 = some pl) :
    pl.progressPercent = 0 ∧ pl.status = "cancelled" := by
  unfold cancelJob at h
  split_ifs at h with hc
  simp only [Option.some.injEq] at h
  subst h
  exact ⟨rfl, rfl⟩

/-- Witness for C9: a job whose stored progress is 50 percent still gets a
cancellation payload with 0.0. -/
theorem C9_cancel_notification_has_zero_progress_witness :
    (cancelJob (EngineJobState.mk [("j1", JobProgress.mk "j1" ProcessingStatus.processing 50 true)] []) "j1").2.2
        = some (notifyJobCancelledPayload "j1") ∧
      (notifyJobCancelledPayload "j1").progressPercent = 0 :=
  ⟨rfl,
    (C9_cancel_notification_has_zero_progress
      (EngineJobState.mk [("j1", JobProgress.mk "j1" ProcessingStatus.processing 50 true)] [])
      "j1" (notifyJobCancelledPayload "j1") rfl).1⟩

/-- Claim C7, counterexample: right after `transcribe_file` finishes — when
the 300 s delayed cleanup has only been scheduled, not fired — the job is
already gone from the active map, so `get_job_progress` returns `None`
although it returned the snapshot just before. -/
theorem C7_snapshot_retrievable_counterexample :
    getJobProgress (EngineJobState.mk
        [("j1", JobProgress.mk "j1" ProcessingStatus.completed 100 true)] []) "j1" ≠ none ∧
      getJobProgress (finalizeTranscribeFile (EngineJobState.mk
        [("j1", JobProgress.mk "j1" ProcessingStatus.completed 100 true)] []) "j1") "j1" = none ∧
      ("j1", 300) ∈ (finalizeTranscribeFile (EngineJobState.mk
        [("j1", JobProgress.mk "j1" ProcessingStatus.completed 100 true)] []) "j1").scheduledCleanups :=
  ⟨by decide, rfl, List.mem_cons_self _ _⟩

/-- Claim C7 (amended): when `transcribe_file` reaches a terminal state, the
`finally` block removes the job from the active map immediately, so the
snapshot is no longer retrievable via `get_job_progress`; the 300 s delayed
cleanup it schedules concerns session scratch state, not the job map. -/
theorem C7_job_removed_immediately (st : EngineJobState) (jobId : String) :
    getJobProgress (finalizeTranscribeFile st jobId) jobId = none ∧
      (jobId, 300) ∈ (finalizeTranscribeFile st jobId).scheduledCleanups := by
  constructor
  · unfold getJobProgress finalizeTranscribeFile
    rw [Option.map_eq_none', List.find?_eq_none]
    intro p hp
    simp only [List.mem_filter] at hp
    simpa using hp.2
  · exact List.mem_cons_self _ _

/-- Claim C10: the scratch directory of a submission is keyed by a UUID the
audio processor draws after the engine drew the job id, so the two keys are
distinct; force-cleaning the job id session touches no chunk file, while the
audio processor cleanup of its own session removes them all.  Fresh UUID
draws are modelled by a counter supply. -/
theorem C10_scratch_dir_keyed_by_fresh_uuid (g : IdGen) (chunkCount : ℕ) (ext : String) :
    (submissionIds g).1 ≠ (submissionIds g).2 ∧
      removeSessionDir (processorFiles (submissionIds g).2 chunkCount ext)
          (submissionIds g).1
        = processorFiles (submissionIds g).2 chunkCount ext ∧
      removeSessionDir (processorFiles (submissionIds g).2 chunkCount ext)
          (submissionIds g).2
        = [] := by
  have hkey : ∀ f ∈ processorFiles (g.next + 1) chunkCount ext,
      f.sessionKey = g.next + 1 := by
    intro f hf
    simp only [processorFiles, List.mem_cons, List.mem_map, List.mem_range] at hf
    rcases hf with h | ⟨i, _, h⟩ <;> subst h <;> rfl
  refine ⟨?_, ?_, ?_⟩
  · show g.next ≠ g.next + 1
    omega
  · show removeSessionDir (processorFiles (g.next + 1) chunkCount ext) g.next
        = processorFiles (g.next + 1) chunkCount ext
    unfold removeSessionDir
    rw [List.filter_eq_self]
    intro f hf
    have hk := hkey f hf
    simp [hk]
  · show removeSessionDir (processorFiles (g.next + 1) chunkCount ext) (g.next + 1)
        = []
    unfold removeSessionDir
    rw [List.filter_eq_nil_iff]
    intro f hf
    have hk := hkey f hf
    simp [hk]

/-- Bridge between the cross-multiplied Boolean threshold test and the
rational Jaccard similarity of the source: the loop takes the fuzzy branch
exactly when the similarity is strictly greater than 0.8. -/
lemma similarityGtPoint8_iff (t1 t2 : String) :
    similarityGtPoint8 t1 t2 = true ↔ calculateTextSimilarity t1 t2 > 4 / 5 := by
  unfold similarityGtPoint8 calculateTextSimilarity
  split_ifs with h1 h2 h3
  · norm_num
  · norm_num
  · rw [decide_eq_true_eq, gt_iff_lt,
      div_lt_div_iff₀ (by norm_num : (0 : ℚ) < 5)
        (by exact_mod_cast h3 : (0 : ℚ) < (simUnionCount t1 t2 : ℚ))]
    rw [mul_comm ((simInterCount t1 t2 : ℚ)) 5]
    constructor
    · intro hh
      exact_mod_cast hh
    · intro hh
      exact_mod_cast hh
  · norm_num

/-- The match test of the countdown loop, restated over the rational
similarity via `similarityGtPoint8_iff`. -/
lemma overlapMatchAt_eq_true_iff (cw nw : List String) (l : ℕ) :
    overlapMatchAt cw nw l = true ↔
      (pyLower (currentEndingAt cw l) = pyLower (nextBeginningAt nw l) ∨
        calculateTextSimilarity (currentEndingAt cw l) (nextBeginningAt nw l) > 4 / 5) := by
  unfold overlapMatchAt
  rw [Bool.or_eq_true, beq_iff_eq, similarityGtPoint8_iff]

/-- Countdown-loop characterization: if no candidate length above `L`
matches and `L` matches, the loop stops at `L` (longest candidate first). -/
lemma findOverlapLoop_eq_of_first_match (cw nw : List String) (L : ℕ) :
    ∀ m, L ≤ m → 1 ≤ L →
      (∀ l, L < l → l ≤ m → overlapMatchAt cw nw l = false) →
      overlapMatchAt cw nw L = true →
      findOverlapLoop cw nw m = some (overlapRemovalAt cw nw L) := by
  intro m
  induction m with
  | zero => intro h1 hL _ _; omega
  | succ k ih =>
    intro hLm hL habove hmatch
    by_cases hk : L = k + 1
    · subst hk
      unfold findOverlapLoop
      rw [if_pos hmatch]
    · have hfalse : overlapMatchAt cw nw (k + 1) = false :=
        habove (k + 1) (by omega) (le_refl _)
      unfold findOverlapLoop
      rw [if_neg (by simp [hfalse])]
      exact ih (by omega) hL (fun l hl1 hl2 => habove l hl1 (by omega)) hmatch

/-- Claim C4, counterexample: with these two ten-word texts the first (and
largest) candidate length tried is 5, where the tail is "a b c d e" and the
head is "a b c d d"; their Jaccard similarity is exactly 0.8, so the claim
(threshold greater-or-equal 0.8) demands a removal, yet the code performs
none — its test is strictly greater than 0.8. -/
theorem C4_fuzzy_threshold_counterexample :
    maxOverlapBound (pySplit "w1 w2 w3 w4 w5 a b c d e")
        (pySplit "a b c d d x1 x2 x3 x4 x5") = 5 ∧
      currentEndingAt (pySplit "w1 w2 w3 w4 w5 a b c d e") 5 = "a b c d e" ∧
      nextBeginningAt (pySplit "a b c d d x1 x2 x3 x4 x5") 5 = "a b c d d" ∧
      calculateTextSimilarity "a b c d e" "a b c d d" = 4 / 5 ∧
      findAndRemoveDuplicateText "w1 w2 w3 w4 w5 a b c d e"
        "a b c d d x1 x2 x3 x4 x5" = none := by
  refine ⟨by decide, by decide, by decide, ?_, by decide⟩
  have hi : simInterCount "a b c d e" "a b c d d" = 4 := by decide
  have hu : simUnionCount "a b c d e" "a b c d d" = 5 := by decide
  unfold calculateTextSimilarity
  rw [if_neg (by decide), if_neg (by decide), if_pos (by decide), hi, hu]
  norm_num

/-- Claim C4 (amended): candidate overlap lengths are tried from
`min(floor(len A / 2), floor(len B / 2), 10)` down to 1, longest first, and
at the first length whose tail/head pair matches exactly (lowercased) or has
Jaccard similarity STRICTLY greater than 0.8, the corresponding words are
removed from both sides. -/
theorem C4_overlap_search_strict_threshold
    (currentText nextText : String) (L : ℕ)
    (hcur : currentText ≠ "") (hnext : nextText ≠ "")
    (h2c : 2 ≤ (pySplit currentText).length)
    (h2n : 2 ≤ (pySplit nextText).length)
    (hL1 : 1 ≤ L)
    (hLM : L ≤ maxOverlapBound (pySplit currentText) (pySplit nextText))
    (habove : ∀ l, L < l →
      l ≤ maxOverlapBound (pySplit currentText) (pySplit nextText) →
      ¬ (pyLower (currentEndingAt (pySplit currentText) l)
            = pyLower (nextBeginningAt (pySplit nextText) l) ∨
          calculateTextSimilarity (currentEndingAt (pySplit currentText) l)
              (nextBeginningAt (pySplit nextText) l) > 4 / 5))
    (hmatch : pyLower (currentEndingAt (pySplit currentText) L)
          = pyLower (nextBeginningAt (pySplit nextText) L) ∨
        calculateTextSimilarity (currentEndingAt (pySplit currentText) L)
            (nextBeginningAt (pySplit nextText) L) > 4 / 5) :
    findAndRemoveDuplicateText currentText nextText
      = some (overlapRemovalAt (pySplit currentText) (pySplit nextText) L) := by
  unfold findAndRemoveDuplicateText
  rw [if_neg (by simp [hcur, hnext]), if_neg (by omega)]
  exact findOverlapLoop_eq_of_first_match _ _ L _ hLM hL1
    (fun l hl1 hl2 => Bool.eq_false_iff.mpr
      (fun ht => habove l hl1 hl2 ((overlapMatchAt_eq_true_iff _ _ l).mp ht)))
    ((overlapMatchAt_eq_true_iff _ _ L).mpr hmatch)

/-- Witness for C4: a fuzzy-only match at the first candidate length 5
(similarity 1 over word sets, exact match failing) triggers the removal. -/
theorem C4_overlap_search_strict_threshold_witness :
    calculateTextSimilarity "a b c d e" "a b c e d" > 4 / 5 ∧
      findAndRemoveDuplicateText "w1 w2 w3 w4 w5 a b c d e"
          "a b c e d x1 x2 x3 x4 x5"
        = some (overlapRemovalAt (pySplit "w1 w2 w3 w4 w5 a b c d e")
            (pySplit "a b c e d x1 x2 x3 x4 x5") 5) := by
  have hsim : calculateTextSimilarity "a b c d e" "a b c e d" > 4 / 5 :=
    (similarityGtPoint8_iff "a b c d e" "a b c e d").mp (by decide)
  have hM : maxOverlapBound (pySplit "w1 w2 w3 w4 w5 a b c d e")
      (pySplit "a b c e d x1 x2 x3 x4 x5") = 5 := by decide
  refine ⟨hsim, ?_⟩
  refine C4_overlap_search_strict_threshold _ _ 5 (by decide) (by decide)
    (by decide) (by decide) (by norm_num) (by rw [hM]) ?_ ?_
  · intro l hl1 hl2
    rw [hM] at hl2
    omega
  · refine Or.inr ?_
    have hce : currentEndingAt (pySplit "w1 w2 w3 w4 w5 a b c d e") 5
        = "a b c d e" := by decide
    have hnb : nextBeginningAt (pySplit "a b c e d x1 x2 x3 x4 x5") 5
        = "a b c e d" := by decide
    rw [hce, hnb]
    exact hsim

/-- Everything of a segment except its text: start, end, confidence,
speaker.  The dedup pass only ever rewrites texts. -/
def segTiming (s : TranscriptionSegment) : ℚ × ℚ × Option ℚ × Option String :=
  (s.start, s.stop, s.confidence, s.speaker)

/-- The dedup loop body preserves every field but the text of each
segment, and the segment count. -/
lemma removeOverlapGo_timing (overlapSeconds : ℚ) (cur : TranscriptionSegment)
    (l : List TranscriptionSegment) :
    (removeOverlapGo overlapSeconds cur l).map segTiming
      = segTiming cur :: l.map segTiming := by
  induction l generalizing cur with
  | nil => simp [removeOverlapGo]
  | cons nxt rest ih =>
    unfold removeOverlapGo
    split_ifs with h
    · cases hf : findAndRemoveDuplicateText (pyStrip cur.text) (pyStrip nxt.text) with
      | none => simp [ih]
      | some p =>
        obtain ⟨c, n⟩ := p
        simp only [List.map_cons, ih]
        rfl
    · simp [ih]

/-- The dedup pass preserves every field but the texts, and the segment
count. -/
lemma removeOverlapDuplicates_timing (segments : List TranscriptionSegment)
    (overlapSeconds : ℚ) :
    (removeOverlapDuplicates segments overlapSeconds).map segTiming
      = segments.map segTiming := by
  unfold removeOverlapDuplicates
  split_ifs with h
  · rfl
  · match segments with
    | [] => rfl
    | s :: rest => exact removeOverlapGo_timing overlapSeconds s rest

/-- Claim C5, counterexample: on two overlapping segments both reading
"c c c c", one dedup pass removes a two-word overlap leaving "c c"/"c c",
and a second pass removes another one-word overlap leaving "c"/"c" — the
pass is not idempotent. -/
theorem C5_dedup_idempotent_counterexample :
    removeOverlapDuplicates (removeOverlapDuplicates
        [TranscriptionSegment.mk 0 10 "c c c c" none none,
         TranscriptionSegment.mk 9 20 "c c c c" none none] 3) 3
      ≠ removeOverlapDuplicates
        [TranscriptionSegment.mk 0 10 "c c c c" none none,
         TranscriptionSegment.mk 9 20 "c c c c" none none] 3 := by
  have hw1 : overlapWindowNonempty (TranscriptionSegment.mk 0 10 "c c c c" none none)
      (TranscriptionSegment.mk 9 20 "c c c c" none none) 3 := by
    unfold overlapWindowNonempty
    norm_num
  have hw2 : overlapWindowNonempty (TranscriptionSegment.mk 0 10 "c c" none none)
      (TranscriptionSegment.mk 9 20 "c c" none none) 3 := by
    unfold overlapWindowNonempty
    norm_num
  have hf1 : findAndRemoveDuplicateText (pyStrip "c c c c") (pyStrip "c c c c")
      = some ("c c", "c c") := by decide
  have hf2 : findAndRemoveDuplicateText (pyStrip "c c") (pyStrip "c c")
      = some ("c", "c") := by decide
  have e1 : removeOverlapDuplicates
      [TranscriptionSegment.mk 0 10 "c c c c" none none,
       TranscriptionSegment.mk 9 20 "c c c c" none none] 3
      = [TranscriptionSegment.mk 0 10 "c c" none none,
         TranscriptionSegment.mk 9 20 "c c" none none] := by
    unfold removeOverlapDuplicates
    rw [if_neg (by norm_num)]
    unfold removeOverlapGo
    rw [if_pos hw1, hf1]
    rfl
  have e2 : removeOverlapDuplicates
      [TranscriptionSegment.mk 0 10 "c c" none none,
       TranscriptionSegment.mk 9 20 "c c" none none] 3
      = [TranscriptionSegment.mk 0 10 "c" none none,
         TranscriptionSegment.mk 9 20 "c" none none] := by
    unfold removeOverlapDuplicates
    rw [if_neg (by norm_num)]
    unfold removeOverlapGo
    rw [if_pos hw2, hf2]
    rfl
  rw [e1, e2]
  intro hcontra
  have := congrArg (fun l => l.head?.map TranscriptionSegment.text) hcontra
  simp at this

/-- Claim C5 (amended): the dedup pass is not idempotent on texts — a
second application can remove further words — but it is idempotent on
everything else: applying it twice yields the same segment count, start and
end times, confidences and speakers as applying it once. -/
theorem C5_dedup_twice_preserves_timing (segments : List TranscriptionSegment)
    (overlapSeconds : ℚ) :
    (removeOverlapDuplicates (removeOverlapDuplicates segments overlapSeconds)
        overlapSeconds).map segTiming
      = (removeOverlapDuplicates segments overlapSeconds).map segTiming :=
  removeOverlapDuplicates_timing _ _

/-- Helper: on a 30-minute audio with 10-minute chunks and 3 s overlap, the
chunker emits 4 chunks (stride is 597 s, so starts are 0, 597, 1194 and
1791 s, and the last 9 s window is final hence emitted). -/
lemma processLargeFile_30min_length :
    (processLargeFile 1800000 10 3).length = 4 := by
  unfold processLargeFile
  rw [if_neg (by norm_num)]
  decide

/-- Helper: the engine estimate for the same audio is
`max(1, ceil(30 / 10)) = 3`. -/
lemma estimatedChunks_30min : estimatedChunks 1800000 10 = 3 := by
  unfold estimatedChunks
  rw [show ((1800000 : ℕ) : ℚ) / 1000 / 60 / ((10 : ℕ) : ℚ) = 3 by norm_num]
  norm_num

/-- Claim C2, counterexample: for a 30-minute audio with chunk duration 10
minutes and overlap 3 s, the chunker emits 4 chunks, while
`max(1, ceil(D/C)) = 3` — which is also what the engine estimates. -/
theorem C2_chunk_count_counterexample :
    (processLargeFile 1800000 10 3).length = 4 ∧
      max 1 ⌈(1800000 : ℚ) / 1000 / 60 / 10⌉ = 3 ∧
      estimatedChunks 1800000 10 = 3 := by
  refine ⟨processLargeFile_30min_length, ?_, estimatedChunks_30min⟩
  rw [show (1800000 : ℚ) / 1000 / 60 / 10 = 3 by norm_num]
  norm_num

/-- Helper: the loop counter of `_process_chunked_file` increments only on
emission, so the emitted indices are consecutive from the initial counter. -/
lemma chunkScan_map_index (totalMs chunkMs : ℕ) (l : List ℕ) (k : ℕ) :
    (chunkScan totalMs chunkMs l k).map EmittedChunk.index
      = List.range' k (chunkScan totalMs chunkMs l k).length := by
  induction l generalizing k with
  | nil => simp [chunkScan]
  | cons s rest ih =>
    unfold chunkScan
    split_ifs with h
    · exact ih k
    · simp only [List.map_cons, List.length_cons, ih (k + 1)]
      rfl

/-- Claim C2 (amended): the emitted chunk indices are always exactly
`0 .. N - 1` where `N` is the number of chunks actually emitted, and in the
single-chunk case (duration at most the chunk duration) `N = 1`, agreeing
with `max(1, ceil(D/C))`; for longer audio, however, `N` is the number of
stride `C - O` windows that are final or at least 5 s long, which can
exceed `max(1, ceil(D/C))`. -/
theorem C2_chunk_indices_dense (totalMs chunkMinutes overlapSeconds : ℕ) :
    (processLargeFile totalMs chunkMinutes overlapSeconds).map EmittedChunk.index
      = List.range (processLargeFile totalMs chunkMinutes overlapSeconds).length
    ∧ ((totalMs : ℚ) / 1000 / 60 ≤ (chunkMinutes : ℚ) →
        (processLargeFile totalMs chunkMinutes overlapSeconds).length = 1) := by
  constructor
  · unfold processLargeFile
    split_ifs with h
    · rfl
    · unfold processChunkedFile
      rw [chunkScan_map_index, List.range_eq_range']
  · intro h
    unfold processLargeFile
    rw [if_pos h]
    rfl

/-- Witness for C2: a 5-minute audio is a single chunk with index 0. -/
theorem C2_chunk_indices_dense_witness :
    ((300000 : ℚ) / 1000 / 60 ≤ ((10 : ℕ) : ℚ)) ∧
      (processLargeFile 300000 10 3).map EmittedChunk.index
        = List.range (processLargeFile 300000 10 3).length ∧
      (processLargeFile 300000 10 3).length = 1 :=
  ⟨by norm_num,
    (C2_chunk_indices_dense 300000 10 3).1,
    (C2_chunk_indices_dense 300000 10 3).2 (by norm_num)⟩

/-- Helper: the progress trace of the 30-minute run is the concrete list
whose fourth chunk update overshoots 100 before the completion clamp. -/
lemma jobProgressTrace_30min :
    jobProgressTrace 1800000 10 3
      = [0, 100 / 3, 200 / 3, 100, 400 / 3, 100] := by
  have h1 : (estimatedChunks 1800000 10).toNat = 3 := by
    rw [estimatedChunks_30min]
    rfl
  unfold jobProgressTrace
  rw [h1, processLargeFile_30min_length]
  unfold progressTrace
  rw [show List.range 4 = [0, 1, 2, 3] by decide]
  simp only [List.map_cons, List.map_nil]
  norm_num

/-- Claim C6, counterexample: on the 30-minute audio the engine estimates 3
chunks but the chunker emits 4, so the progress sequence reaches 400/3
(about 133 percent) after the fourth chunk and then drops to 100.0 at
completion — it is not monotonically non-decreasing. -/
theorem C6_progress_monotone_counterexample :
    ¬ List.Chain' (· ≤ ·) (jobProgressTrace 1800000 10 3) := by
  intro hch
  rw [jobProgressTrace_30min] at hch
  simp only [List.chain'_cons, List.chain'_singleton, and_true] at hch
  have h45 : (400 / 3 : ℚ) ≤ 100 := hch.2.2.2.2
  norm_num at h45

/-- Helper: when the number of chunk updates does not exceed the estimated
total, the progress trace is monotone. -/
lemma progressTrace_chain (totalChunks emittedCount : ℕ)
    (hT : 1 ≤ totalChunks) (hn : emittedCount ≤ totalChunks) :
    List.Chain' (· ≤ ·) (progressTrace totalChunks emittedCount false) := by
  have hT' : (0 : ℚ) < (totalChunks : ℚ) := by exact_mod_cast hT
  have hbound : ∀ m : ℕ, m + 1 ≤ totalChunks →
      (((m : ℕ) : ℚ) + 1) / (totalChunks : ℚ) * 100 ≤ 100 := by
    intro m hm
    have hmq : ((m : ℚ) + 1) ≤ (totalChunks : ℚ) := by exact_mod_cast hm
    have hdiv : ((m : ℚ) + 1) / (totalChunks : ℚ) ≤ 1 := by
      rw [div_le_one hT']
      exact hmq
    calc ((m : ℚ) + 1) / (totalChunks : ℚ) * 100
        ≤ 1 * 100 := by
          apply mul_le_mul_of_nonneg_right hdiv
          norm_num
      _ = 100 := by norm_num
  unfold progressTrace
  rw [show (if (false : Bool) then ([] : List ℚ) else [100]) = [100] by simp]
  rw [← List.cons_append, List.chain'_append]
  refine ⟨?_, List.chain'_singleton _, ?_⟩
  · rw [List.chain'_cons']
    constructor
    · intro y hy
      match emittedCount, hy with
      | (m + 1), hy =>
        rw [List.range_succ_eq_map] at hy
        simp only [List.map_cons, List.head?_cons, Option.mem_def,
          Option.some.injEq] at hy
        rw [← hy]
        positivity
    · rw [List.chain'_map]
      match emittedCount with
      | 0 => simp
      | (m + 1) =>
        rw [List.chain'_range_succ]
        intro j _
        gcongr
        linarith
  · intro x hx y hy
    simp only [List.head?_cons, Option.mem_def, Option.some.injEq] at hy
    rw [← hy]
    match emittedCount, hn, hx with
    | 0, _, hx =>
      simp only [List.range_zero, List.map_nil, List.getLast?_singleton,
        Option.mem_def, Option.some.injEq] at hx
      rw [← hx]
      norm_num
    | (m + 1), hn, hx =>
      rw [List.range_succ, List.map_append, List.map_cons, List.map_nil,
        ← List.cons_append, List.getLast?_concat] at hx
      simp only [Option.mem_def, Option.some.injEq] at hx
      rw [← hx]
      exact hbound m hn

/-- Helper: an uncancelled trace always ends with the completion value
100.0. -/
lemma progressTrace_getLast (totalChunks emittedCount : ℕ) :
    (progressTrace totalChunks emittedCount false).getLast? = some 100 := by
  unfold progressTrace
  rw [show (if (false : Bool) then ([] : List ℚ) else [100]) = [100] by simp]
  rw [← List.cons_append, List.getLast?_concat]

/-- Claim C6 (amended): the progress sequence is monotonically
non-decreasing whenever the chunker emits no more chunks than the engine
estimated (in particular progress then never exceeds 100), and on
completion the progress is set to exactly 100.0; when the chunker emits
more chunks than estimated, progress overshoots 100 and the completion
clamp decreases it. -/
theorem C6_progress_monotone_when_estimate_holds
    (totalMs chunkMinutes overlapSeconds : ℕ)
    (h : (processLargeFile totalMs chunkMinutes overlapSeconds).length
        ≤ (estimatedChunks totalMs chunkMinutes).toNat) :
    List.Chain' (· ≤ ·) (jobProgressTrace totalMs chunkMinutes overlapSeconds) ∧
      (jobProgressTrace totalMs chunkMinutes overlapSeconds).getLast? = some 100 := by
  have hT : 1 ≤ (estimatedChunks totalMs chunkMinutes).toNat := by
    have h1 : (1 : ℤ) ≤ estimatedChunks totalMs chunkMinutes := le_max_left _ _
    omega
  exact ⟨progressTrace_chain _ _ hT h, progressTrace_getLast _ _⟩

/-- Witness for C6: a 25-minute audio emits 3 chunks against an estimate of
3, and the trace is monotone ending at 100. -/
theorem C6_progress_monotone_when_estimate_holds_witness :
    (processLargeFile 1500000 10 3).length
        ≤ (estimatedChunks 1500000 10).toNat ∧
      List.Chain' (· ≤ ·) (jobProgressTrace 1500000 10 3) ∧
      (jobProgressTrace 1500000 10 3).getLast? = some 100 := by
  have hlen : (processLargeFile 1500000 10 3).length = 3 := by
    unfold processLargeFile
    rw [if_neg (by norm_num)]
    decide
  have hest : estimatedChunks 1500000 10 = 3 := by
    unfold estimatedChunks
    rw [show ((1500000 : ℕ) : ℚ) / 1000 / 60 / ((10 : ℕ) : ℚ) = 5 / 2 by norm_num]
    rw [show ⌈(5 / 2 : ℚ)⌉ = 3 by
      rw [Int.ceil_eq_iff]
      norm_num]
    norm_num
  have hle : (processLargeFile 1500000 10 3).length
      ≤ (estimatedChunks 1500000 10).toNat := by
    rw [hlen, hest]
    norm_num
  exact ⟨hle, (C6_progress_monotone_when_estimate_holds 1500000 10 3 hle).1,
    (C6_progress_monotone_when_estimate_holds 1500000 10 3 hle).2⟩

/-- Claim C1, counterexample: a job of two chunks cancelled before the
second chunk ends with status `cancelled`, yet the response body returned to
the caller still contains the segment of the first chunk — the partial
results are not discarded. -/
theorem C1_partial_results_discarded_counterexample :
    (runTranscribeFile
        [ChunkData.mk 0 [TranscriptionSegment.mk 0 5 "hello" none none],
         ChunkData.mk 597 [TranscriptionSegment.mk 0 5 "world" none none]]
        (some 1) 3).status = ProcessingStatus.cancelled ∧
      (runTranscribeFile
        [ChunkData.mk 0 [TranscriptionSegment.mk 0 5 "hello" none none],
         ChunkData.mk 597 [TranscriptionSegment.mk 0 5 "world" none none]]
        (some 1) 3).segments ≠ [] := by
  refine ⟨rfl, ?_⟩
  simp [runTranscribeFile]

/-- Claim C1 (amended): after `CancelJob`, the status does become
`cancelled` and no chunk at or beyond the cancellation boundary is
processed, but `transcribe_file` still builds and returns a response body:
it carries the partial segments collected before the cancellation
(deduplicated when more than one), and its chunk count is the number of
chunks processed before the flag was observed. -/
theorem C1_cancelled_job_returns_partial_response (chunks : List ChunkData)
    (j : ℕ) (overlapSeconds : ℚ) (h : j ≤ chunks.length) :
    (runTranscribeFile chunks (some j) overlapSeconds).status = ProcessingStatus.cancelled ∧
      (runTranscribeFile chunks (some j) overlapSeconds).chunkCount = j := by
  refine ⟨rfl, ?_⟩
  simp [runTranscribeFile, List.length_take, h]

/-- Witness for C1: the two-chunk job cancelled at boundary 1. -/
theorem C1_cancelled_job_returns_partial_response_witness :
    1 ≤ ([ChunkData.mk 0 [TranscriptionSegment.mk 0 5 "hello" none none],
          ChunkData.mk 597 [TranscriptionSegment.mk 0 5 "world" none none]] : List ChunkData).length ∧
      (runTranscribeFile
        [ChunkData.mk 0 [TranscriptionSegment.mk 0 5 "hello" none none],
         ChunkData.mk 597 [TranscriptionSegment.mk 0 5 "world" none none]]
        (some 1) 3).status = ProcessingStatus.cancelled ∧
      (runTranscribeFile
        [ChunkData.mk 0 [TranscriptionSegment.mk 0 5 "hello" none none],
         ChunkData.mk 597 [TranscriptionSegment.mk 0 5 "world" none none]]
        (some 1) 3).chunkCount = 1 :=
  ⟨by simp, C1_cancelled_job_returns_partial_response _ 1 3 (by simp)⟩

end VoxFlow
